import Mathlib

/-!
# Verification of the survey engine of `artificial-centuria`

Shallow embedding of the survey execution and preference-aggregation logic of
`web/src/routes/experiments/02-testing-space-before-it-happens/+page.svelte`:
response classification, vote tallies, follow-up tallies, the top-choice
cohort with demographic breakdowns, follow-up question selection, follow-up
cost scaling, and the page's phase transitions on survey runs.

JavaScript strings are modelled as Lean `String`s (in this toolchain a
`String` is a list of characters), and the string operations the page uses
(`toLowerCase`, `trim`, `includes`, `split(' ')`) are defined explicitly
below so that they mirror the ECMAScript behaviour on the ASCII data the
page manipulates.
-/

namespace Centuria

/-- JavaScript `String.prototype.toLowerCase` restricted to the ASCII range
(all strings handled by the page are ASCII apart from `é`, which is already
lower case and is left unchanged by both sides). -/
def jsToLower (s : String) : String := ⟨s.data.map Char.toLower⟩

/-- The whitespace characters relevant to JavaScript `trim` on the page's data. -/
def isSpaceChar (c : Char) : Bool := c = ' ' || c = '\t' || c = '\n' || c = '\r'

/-- Characters of a string with leading and trailing whitespace removed,
as JavaScript `String.prototype.trim` does. -/
def trimChars (l : List Char) : List Char :=
  ((l.dropWhile isSpaceChar).reverse.dropWhile isSpaceChar).reverse

/-- JavaScript `String.prototype.trim`. -/
def jsTrim (s : String) : String := ⟨trimChars s.data⟩

/-- `nd` occurs contiguously inside `hay`. -/
def infixCheck (nd hay : List Char) : Bool :=
  (List.range (hay.length + 1)).any (fun i => nd.isPrefixOf (hay.drop i))

/-- JavaScript `hay.includes(nd)`. -/
def jsIncludes (hay nd : String) : Bool := infixCheck nd.data hay.data

/-- Helper for `jsSplitSpace`: accumulates the current word (reversed). -/
def splitSpaceAux : List Char → List Char → List (List Char)
  | [], acc => [acc.reverse]
  | c :: rest, acc =>
    if c = ' ' then acc.reverse :: splitSpaceAux rest []
    else splitSpaceAux rest (c :: acc)

/-- JavaScript `s.split(' ')`: splits at every single space, keeping empty
fragments (`''.split(' ') = ['']`, `'a  b'.split(' ') = ['a','','b']`). -/
def jsSplitSpace (s : String) : List String :=
  (splitSpaceAux s.data []).map (fun l => ⟨l⟩)

/-! ## Data model -/

/-- One survey answer, as produced by `/api/survey/run` and consumed by the
page (`persona_id`, `persona_name`, `response`, and for follow-up batches the
`question_index` the page attaches). -/
structure SurveyResponse where
  persona_id : String
  persona_name : String
  response : String
  question_index : Option Nat := none
deriving DecidableEq

/-- The persona attributes the page's demographic breakdowns read. -/
structure Persona where
  id : String
  name : String
  age : Int
  occupation : Option String
deriving DecidableEq

/-- A follow-up design question (`{id, text, options}`). -/
structure FollowUpQuestion where
  id : String
  text : String
  options : List String
deriving DecidableEq

/-- The options for the plot, exactly as declared in the page
(`plotOptions`, lines 86-98). -/
def plotOptions : List String :=
  ["Allotments", "Playground", "Outdoor gym", "Pond", "Urban forest",
   "Sculpture park", "Junkyard", "Courtyard", "Carpark",
   "Urban caving entrance", "Portacabins"]

/-! ## Response classification (the per-response body of `voteTallies`) -/

/-- Tier-1 loop of `voteTallies` (lines 112-118): first option whose
lowercased label contains the prepared response text or is contained in it.
`resp` is already lowercased and trimmed. -/
def containLoop (resp : String) : List String → Option String
  | [] => none
  | opt :: rest =>
    if jsIncludes resp (jsToLower opt) || jsIncludes (jsToLower opt) resp
    then some opt else containLoop resp rest

/-- The number of option-label words that overlap with some response word
(`overlap.length` in lines 123-125): an option word overlaps a response word
when either is a substring of the other. -/
def overlapCount (resp opt : String) : Nat :=
  let optWords := jsSplitSpace (jsToLower opt)
  let responseWords := jsSplitSpace resp
  (optWords.filter (fun w =>
    responseWords.any (fun rw => jsIncludes rw w || jsIncludes w rw))).length

/-- Tier-2 loop of `voteTallies` (lines 121-132): first option with at least
3 overlapping words. -/
def overlapLoop (resp : String) : List String → Option String
  | [] => none
  | opt :: rest =>
    if 3 ≤ overlapCount resp opt then some opt else overlapLoop resp rest

/-- Classification of one response against an option list, exactly as the
body of the `surveyResults.forEach` in `voteTallies` (lines 107-137):
lowercase and trim the response, try the containment loop, then the
word-overlap loop, and fall back to `"Other"`. -/
def classify (options : List String) (respRaw : String) : String :=
  let resp := jsTrim (jsToLower respRaw)
  match containLoop resp options with
  | some opt => opt
  | none =>
    match overlapLoop resp options with
    | some opt => opt
    | none => "Other"

/-! Definitions written from the specification's own words, used to state the
refinement claims about the classifier. -/

/-- Modelled from the spec: "Containment match: case-insensitive,
whitespace-trimmed; if the response text contains an option's full label, or
the option's full label contains the response text". `resp` is the prepared
(lowercased, trimmed) response text. -/
def containmentMatch (resp opt : String) : Bool :=
  jsIncludes resp (jsToLower opt) || jsIncludes (jsToLower opt) resp

/-- Modelled from the spec: "Word-overlap match: tokenize both the option
label and the response into lowercase words; if at least 3 words overlap
(where overlap means one word is a substring of the other in either
direction)". -/
def wordOverlapMatch (resp opt : String) : Bool :=
  decide (3 ≤ overlapCount resp opt)

/-- The classifier as the specification describes it: two tiers in strict
priority order, options tried in declaration order, first match wins, with
every option tested for containment before any option is tested for word
overlap, and `"Other"` as the fallback. -/
def classifySpec (options : List String) (respRaw : String) : String :=
  let resp := jsTrim (jsToLower respRaw)
  match options.find? (containmentMatch resp) with
  | some opt => opt
  | none =>
    match options.find? (wordOverlapMatch resp) with
    | some opt => opt
    | none => "Other"

/-! ## Tally aggregation (`voteTallies`, lines 101-143) -/

/-- The comparator `(a, b) => b[1] - a[1]` used by the page's tally sorts:
entry `a` may precede entry `b` when `b`'s count is at most `a`'s. -/
def tallyLE (a b : String × Nat) : Prop := b.2 ≤ a.2

instance : DecidableRel tallyLE := fun a b => Nat.decLe b.2 a.2

instance : IsTotal (String × Nat) tallyLE := ⟨fun a b => Nat.le_total b.2 a.2⟩

instance : IsTrans (String × Nat) tallyLE :=
  ⟨fun _ _ _ hab hbc => Nat.le_trans hbc hab⟩

/-- The ECMAScript stable sort with the comparator `(a, b) => b[1] - a[1]`.
For a consistent comparator the ECMAScript specification determines the
result uniquely: a sorted stable permutation of the input; a stable
insertion sort computes exactly that list (`List.sorted_insertionSort`,
`List.perm_insertionSort`, `List.pair_sublist_insertionSort`). -/
def jsSortByCountDesc (l : List (String × Nat)) : List (String × Nat) :=
  l.insertionSort tallyLE

/-- Helper for `dedupKeys`: drops keys already seen. -/
def dedupKeysAux (seen : List String) : List String → List String
  | [] => []
  | k :: ks =>
    if seen.contains k then dedupKeysAux seen ks
    else k :: dedupKeysAux (k :: seen) ks

/-- Insertion-order key list of a JavaScript object built by assigning the
given keys in order: later duplicates do not move a key. -/
def dedupKeys (l : List String) : List String := dedupKeysAux [] l

/-- The final value of `counts[key]`: the number of responses classified to
`key`. -/
def countFor (options : List String) (results : List SurveyResponse)
    (key : String) : Nat :=
  (results.filter (fun r => classify options r.response == key)).length

/-- The keys of the `counts` object in insertion order: the options (first
occurrence order), then `'Other'` appended when some response fell through to
the fallback and no option already supplied that key. -/
def tallyKeys (options : List String) (results : List SurveyResponse) :
    List String :=
  let ks := dedupKeys options
  if results.any (fun r => classify options r.response == "Other")
      && !(ks.contains "Other")
  then ks ++ ["Other"] else ks

/-- `voteTallies` (lines 101-143): classify every response, count per label,
drop zero counts, and sort descending by count with the ECMAScript stable
sort. -/
def voteTallies (options : List String) (results : List SurveyResponse) :
    List (String × Nat) :=
  if results.isEmpty then []
  else
    let entries := (tallyKeys options results).map
      (fun k => (k, countFor options results k))
    jsSortByCountDesc (entries.filter (fun e => 0 < e.2))

/-! ## Follow-up tallies (`followUpTallies`, lines 164-187) -/

/-- The final value of `counts[key]` in a follow-up tally: the number of
responses whose first containment match among the question's options is
`key`. There is no word-overlap tier and no `'Other'` bucket here. -/
def fuCountFor (qOptions : List String) (rs : List SurveyResponse)
    (key : String) : Nat :=
  (rs.filter (fun r =>
    containLoop (jsTrim (jsToLower r.response)) qOptions == some key)).length

/-- The tally of one follow-up question (lines 169-185): counts over the
question's options only (zero counts kept), sorted descending by count. -/
def followUpTallyFor (q : FollowUpQuestion) (rs : List SurveyResponse) :
    List (String × Nat) :=
  jsSortByCountDesc
    ((dedupKeys q.options).map (fun k => (k, fuCountFor q.options rs k)))

/-- `followUpTallies` (lines 164-187): one `(question text, tally)` per
follow-up question, over the responses carrying that question's index. -/
def followUpTallies (questions : List FollowUpQuestion)
    (results : List SurveyResponse) : List (String × List (String × Nat)) :=
  if results.isEmpty || questions.isEmpty then []
  else questions.enum.map (fun iq =>
    (iq.2.text, followUpTallyFor iq.2
      (results.filter (fun r => r.question_index == some iq.1))))

/-! ## Top-choice cohort and demographic breakdowns -/

/-- A cohort member: the response, joined with the persona found by
`persona_id` when there is one (`{...r, persona}` vs plain `r`). -/
structure Voter where
  resp : SurveyResponse
  persona : Option Persona
deriving DecidableEq

/-- `topChoiceVoters` (lines 146-161): the responses whose lowercased text
contains the top label or is contained in it, each joined with the persona
whose `id` equals its `persona_id` (when found). -/
def topChoiceVoters (options : List String) (results : List SurveyResponse)
    (personas : List Persona) : List Voter :=
  match (voteTallies options results).head? with
  | none => []
  | some (topChoice, _) =>
    if topChoice == "" then []
    else
      (results.filter (fun r =>
        jsIncludes (jsToLower r.response) (jsToLower topChoice)
          || jsIncludes (jsToLower topChoice) (jsToLower r.response))).map
        (fun r => ⟨r, personas.find? (fun p => p.id == r.persona_id)⟩)

/-- The four fixed age buckets of `getAgeGroups`. -/
structure AgeGroups where
  under30 : Nat
  from30to49 : Nat
  from50to64 : Nat
  from65up : Nat
deriving DecidableEq

/-- One step of the `reduce` in `getAgeGroups` (lines 733-742): a voter
without a joined persona is skipped (`if (!v.persona) return acc`); otherwise
the persona's age falls into exactly one bucket. -/
def ageGroupStep (acc : AgeGroups) (v : Voter) : AgeGroups :=
  match v.persona with
  | none => acc
  | some p =>
    if p.age < 30 then { acc with under30 := acc.under30 + 1 }
    else if p.age < 50 then { acc with from30to49 := acc.from30to49 + 1 }
    else if p.age < 65 then { acc with from50to64 := acc.from50to64 + 1 }
    else { acc with from65up := acc.from65up + 1 }

/-- `getAgeGroups` (lines 732-745). -/
def getAgeGroups (voters : List Voter) : AgeGroups :=
  voters.foldl ageGroupStep ⟨0, 0, 0, 0⟩

/-- The total number of voters counted across the four age buckets. -/
def ageGroupsTotal (g : AgeGroups) : Nat :=
  g.under30 + g.from30to49 + g.from50to64 + g.from65up

/-- `v.persona.occupation || 'Unknown'`. -/
def occupationOf (p : Persona) : String :=
  match p.occupation with
  | some s => if s == "" then "Unknown" else s
  | none => "Unknown"

/-- `getOccupations` (lines 747-755): frequency table over voters that have
a joined persona, keys in first-appearance order, sorted descending by
count. -/
def getOccupations (voters : List Voter) : List (String × Nat) :=
  let occs := (voters.filterMap (fun v => v.persona)).map occupationOf
  jsSortByCountDesc ((dedupKeys occs).map (fun k => (k, occs.count k)))

/-! ## Follow-up question selection (`generateFollowUpQuestions`, lines 340-570) -/

/-- The growing/allotment category's fixed questions (lines 347-364). -/
def allotmentQuestions : List FollowUpQuestion :=
  [⟨"plot_style", "How should the plots be laid out?",
    ["Raised beds", "Ground-level rows", "Mixed sizes for different needs"]⟩,
   ⟨"shared_facility", "What shared facility is most important?",
    ["Tool shed", "Greenhouse", "Composting area", "Water taps throughout"]⟩,
   ⟨"paths", "What should the paths be made of?",
    ["Gravel", "Wood chip", "Paved slabs", "Mown grass"]⟩]

/-- The playground category's fixed questions (lines 365-382). -/
def playgroundQuestions : List FollowUpQuestion :=
  [⟨"age_group", "What age group should it focus on?",
    ["Toddlers (under 5)", "Children (5-12)", "All ages mixed"]⟩,
   ⟨"main_equipment", "What should be the main equipment?",
    ["Climbing frame with slide", "Swings", "Natural play (logs, boulders)",
     "Water play"]⟩,
   ⟨"surface", "What should the ground surface be?",
    ["Rubber safety surface", "Wood chip", "Sand", "Grass"]⟩]

/-- The outdoor-gym category's fixed questions (lines 383-400). -/
def gymQuestions : List FollowUpQuestion :=
  [⟨"equipment_type", "What type of equipment?",
    ["Bodyweight stations", "Cardio machines", "Calisthenics bars",
     "Mixed variety"]⟩,
   ⟨"surface", "What should the ground surface be?",
    ["Rubber matting", "Artificial grass", "Paved area", "Natural grass"]⟩,
   ⟨"extras", "What extra feature would be most useful?",
    ["Drinking fountain", "Covered shelter", "Stretching area",
     "Running track around edge"]⟩]

/-- The pond category's fixed questions (lines 401-418). -/
def pondQuestions : List FollowUpQuestion :=
  [⟨"pond_size", "How large should the pond be?",
    ["Small wildlife pond", "Medium pond with seating", "Large pond with island"]⟩,
   ⟨"access", "How should people access the pond?",
    ["Viewing platform", "Boardwalk around edge", "Natural banks to sit on",
     "Dipping platform"]⟩,
   ⟨"surrounding", "What should surround the pond?",
    ["Wetland plants", "Wildflower meadow", "Trees and shrubs", "Lawn area"]⟩]

/-- The urban-forest category's fixed questions (lines 419-436). -/
def forestQuestions : List FollowUpQuestion :=
  [⟨"tree_types", "What type of trees?",
    ["Native woodland mix", "Fruit and nut trees", "Fast-growing for quick shade",
     "Evergreen year-round"]⟩,
   ⟨"density", "How dense should it be?",
    ["Dense woodland feel", "Open with scattered trees",
     "Mix of clearings and thickets"]⟩,
   ⟨"paths", "What paths through the forest?",
    ["Winding woodland trails", "Single loop path", "Boardwalk",
     "No formal paths"]⟩]

/-- The sculpture-park category's fixed questions (lines 437-454). -/
def sculptureQuestions : List FollowUpQuestion :=
  [⟨"art_style", "What style of sculptures?",
    ["Abstract modern", "Figurative and traditional", "Interactive installations",
     "Local artist commissions"]⟩,
   ⟨"layout", "How should it be laid out?",
    ["Formal paths between pieces", "Scattered through gardens",
     "Central plaza with surrounding pieces"]⟩,
   ⟨"landscape", "What should the landscaping be?",
    ["Manicured lawns", "Wildflower meadows", "Gravel and paving",
     "Mixed planting beds"]⟩]

/-- The junkyard category's fixed questions (lines 455-472). -/
def junkyardQuestions : List FollowUpQuestion :=
  [⟨"purpose", "What should the junkyard be for?",
    ["Adventure playground from scrap", "Art installations from waste",
     "Community repair workshop", "Salvage and reuse depot"]⟩,
   ⟨"aesthetic", "What aesthetic?",
    ["Organised chaos", "Curated industrial", "Hidden treasures",
     "Colourful and artistic"]⟩,
   ⟨"access", "Who should access it?",
    ["Open to all", "Supervised sessions only", "Members with training",
     "Children with adults"]⟩]

/-- The courtyard category's fixed questions (lines 473-490). -/
def courtyardQuestions : List FollowUpQuestion :=
  [⟨"style", "What style of courtyard?",
    ["Mediterranean with tiles", "Japanese zen garden", "English cottage garden",
     "Modern minimalist"]⟩,
   ⟨"centre", "What should be in the centre?",
    ["Fountain or water feature", "Large tree", "Seating area",
     "Open paved space"]⟩,
   ⟨"planting", "What planting around the edges?",
    ["Climbing plants on walls", "Potted plants", "Formal hedges",
     "Flowering borders"]⟩]

/-- The carpark category's fixed questions (lines 491-508). -/
def carparkQuestions : List FollowUpQuestion :=
  [⟨"surface", "What surface?",
    ["Tarmac", "Gravel", "Permeable paving", "Grass reinforcement grid"]⟩,
   ⟨"capacity", "How many spaces?",
    ["Maximum capacity", "Half spaces, half green", "Just a few spaces",
     "Mainly bike parking"]⟩,
   ⟨"features", "What additional features?",
    ["EV charging points", "Trees for shade", "Bike storage",
     "None - just parking"]⟩]

/-- The urban-caving category's fixed questions (lines 509-526). -/
def cavingQuestions : List FollowUpQuestion :=
  [⟨"entrance_style", "What style of entrance?",
    ["Natural rock formation", "Built stone archway", "Hidden and subtle",
     "Dramatic and visible"]⟩,
   ⟨"above_ground", "What should be above ground?",
    ["Equipment storage hut", "Information centre", "Just the entrance",
     "Café and facilities"]⟩,
   ⟨"access", "Who should access it?",
    ["Trained cavers only", "Guided tours for public", "Members with equipment",
     "Open supervised sessions"]⟩]

/-- The portacabins category's fixed questions (lines 527-544). -/
def portacabinQuestions : List FollowUpQuestion :=
  [⟨"purpose", "What should the portacabins be used for?",
    ["Community meeting rooms", "Workspace and offices", "Youth club",
     "Storage and workshops"]⟩,
   ⟨"quantity", "How many portacabins?",
    ["One large unit", "Several small units", "Clustered complex",
     "Stacked two-storey"]⟩,
   ⟨"outside", "What should surround them?",
    ["Paved area with seating", "Garden and planting", "Parking spaces",
     "Fenced compound"]⟩]

/-- The generic fallback questions (lines 545-564). -/
def genericQuestions : List FollowUpQuestion :=
  [⟨"style", "What style should the space have?",
    ["Natural and informal", "Neat and structured", "Colourful and playful",
     "Simple and low-maintenance"]⟩,
   ⟨"seating", "What seating should be included?",
    ["Wooden benches", "Picnic tables", "Stone seats",
     "Flexible (bring your own)"]⟩,
   ⟨"boundary", "What should mark the boundaries?",
    ["Native hedge", "Low fence", "Flowering shrubs", "Open and unfenced"]⟩]

/-- The category dispatch of `generateFollowUpQuestions` (lines 345-564):
lowercase the winning option text and pick the first category whose keyword
occurs in it by substring containment, in the fixed order of the source;
otherwise the generic fallback. -/
def selectFollowUpQuestions (winningOption : String) : List FollowUpQuestion :=
  let option := jsToLower winningOption
  if jsIncludes option "allotment" then allotmentQuestions
  else if jsIncludes option "playground" then playgroundQuestions
  else if jsIncludes option "gym" then gymQuestions
  else if jsIncludes option "pond" then pondQuestions
  else if jsIncludes option "urban forest" || jsIncludes option "forest" then
    forestQuestions
  else if jsIncludes option "sculpture" || jsIncludes option "park" then
    sculptureQuestions
  else if jsIncludes option "junkyard" then junkyardQuestions
  else if jsIncludes option "courtyard" then courtyardQuestions
  else if jsIncludes option "carpark" || jsIncludes option "car park" then
    carparkQuestions
  else if jsIncludes option "caving" || jsIncludes option "cave" then
    cavingQuestions
  else if jsIncludes option "portacabin" || jsIncludes option "porta" then
    portacabinQuestions
  else genericQuestions

/-! ## Follow-up cost estimation (`recalculateFollowUpCost`, lines 579-621) -/

/-- One cost estimate as returned by `/api/survey/estimate`. -/
structure CostEstimate where
  num_agents : Nat
  prompt_tokens : Nat
  completion_tokens : Nat
  cost_per_agent : ℚ
  total_cost : ℚ
deriving DecidableEq

/-- The follow-up estimate the page displays: the sampled estimate scaled by
the batch size. -/
structure FollowUpCostEstimate where
  num_agents : Nat
  prompt_tokens : Nat
  completion_tokens : Nat
  cost_per_agent : ℚ
  total_cost : ℚ
  num_questions : Nat
deriving DecidableEq

/-- The scaling of `recalculateFollowUpCost` (lines 605-613): the estimate
sampled once for the first follow-up question, with `prompt_tokens`,
`completion_tokens`, `cost_per_agent` and `total_cost` each multiplied by 3
and `num_questions := 3`; no second sample is requested. -/
def scaleFollowUpEstimate (estimate : CostEstimate) : FollowUpCostEstimate :=
  { num_agents := estimate.num_agents
    prompt_tokens := estimate.prompt_tokens * 3
    completion_tokens := estimate.completion_tokens * 3
    cost_per_agent := estimate.cost_per_agent * 3
    total_cost := estimate.total_cost * 3
    num_questions := 3 }

/-- The question whose estimate `recalculateFollowUpCost` requests: only the
first question of the batch is ever sampled (line 590). -/
def followUpEstimateSample (questions : List FollowUpQuestion) :
    Option FollowUpQuestion :=
  questions.head?

/-! ## Phase transitions of the survey runs -/

/-- The page's `phase` values. -/
inductive Phase where
  | intro
  | estimate
  | surveying
  | results
  | followupEstimate
  | followupSurveying
  | followupResults
deriving DecidableEq

/-- The outcome of one `/api/survey/run` request as the page observes it:
the happy path carries the batch's responses and their summed cost; a
request may also complete with a non-OK HTTP status (`response.ok` false),
or throw (network failure), carrying the thrown message. -/
inductive RunOutcome where
  | ok (responses : List SurveyResponse) (cost : ℚ)
  | httpError
  | netError (msg : String)
deriving DecidableEq

/-- The page state touched by the survey runs. -/
structure PageState where
  phase : Phase
  surveyResults : List SurveyResponse
  followUpResults : List SurveyResponse
  followUpQuestions : List FollowUpQuestion
  totalCost : ℚ
  winningOption : Option String
  errorMsg : Option String
deriving DecidableEq

/-- `runSurvey` (lines 294-338): clear the results and run the main survey;
on success store the responses and the winning option and move to `results`;
a non-OK response throws `'Survey failed'` and a thrown error is caught by
setting the error message and returning to `intro`. -/
def runSurvey (outcome : RunOutcome) (s : PageState) : PageState :=
  let s1 := { s with phase := Phase.surveying, surveyResults := [],
                     totalCost := 0 }
  match outcome with
  | RunOutcome.ok rs c =>
    let s2 := { s1 with surveyResults := rs, totalCost := c,
                        phase := Phase.results }
    match (voteTallies plotOptions rs).head? with
    | some top => { s2 with winningOption := some top.1 }
    | none => s2
  | RunOutcome.httpError =>
    { s1 with errorMsg := some "Survey failed", phase := Phase.intro }
  | RunOutcome.netError m =>
    { s1 with errorMsg := some m, phase := Phase.intro }

/-- The `for` loop of `runFollowUpSurvey` (lines 629-657) over the indexed
request outcomes: an OK response appends its responses tagged with the
question index and adds its cost; a non-OK response is skipped silently; a
thrown error stops the loop and reports the message. -/
def runFollowUpLoop : List (Nat × RunOutcome) → List SurveyResponse → ℚ →
    List SurveyResponse × ℚ × Option String
  | [], acc, cost => (acc, cost, none)
  | (i, RunOutcome.ok rs c) :: rest, acc, cost =>
    runFollowUpLoop rest
      (acc ++ rs.map (fun r => { r with question_index := some i })) (cost + c)
  | (_, RunOutcome.httpError) :: rest, acc, cost =>
    runFollowUpLoop rest acc cost
  | (_, RunOutcome.netError m) :: _, acc, cost => (acc, cost, some m)

/-- `runFollowUpSurvey` (lines 623-664): run one request per follow-up
question sequentially; if the loop finishes the phase becomes
`followup-results`; a thrown error is caught by setting the error message
and returning to `results`, keeping whatever accumulated so far. -/
def runFollowUpSurvey (outcomes : List RunOutcome) (s : PageState) :
    PageState :=
  let s1 := { s with phase := Phase.followupSurveying, followUpResults := [] }
  match runFollowUpLoop
      ((List.range s.followUpQuestions.length).zip outcomes) [] s.totalCost with
  | (acc, cost, none) =>
    { s1 with followUpResults := acc, totalCost := cost,
              phase := Phase.followupResults }
  | (acc, cost, some m) =>
    { s1 with followUpResults := acc, totalCost := cost,
              phase := Phase.results, errorMsg := some m }

/-! ## Predicates taken from the claims, and concrete scenario data -/

/-- Modelled from the claim as amended: membership in the top-choice cohort
is decided by containment alone — the lowercased (untrimmed) response text
contains the winning label, or the winning label contains it. -/
def cohortContainCond (topChoice : String) (r : SurveyResponse) : Bool :=
  jsIncludes (jsToLower r.response) (jsToLower topChoice)
    || jsIncludes (jsToLower topChoice) (jsToLower r.response)

/-- Scenario A of the specification: three responses, one per bucket
(the winning option, a paraphrase of another option, and noise). -/
def scenarioAResponses : List SurveyResponse :=
  [⟨"p1", "Asha", "Allotments", none⟩,
   ⟨"p2", "Ben", "vote for the playground", none⟩,
   ⟨"p3", "Cleo", "asdkjasd", none⟩]

/-- The first allotment follow-up question, as standalone scenario data. -/
def plotStyleQuestion : FollowUpQuestion :=
  ⟨"plot_style", "How should the plots be laid out?",
   ["Raised beds", "Ground-level rows", "Mixed sizes for different needs"]⟩

/-- A follow-up batch of one real catalog question with one response that
matches none of its options by containment. -/
def unmatchedFollowUpResponse : SurveyResponse := ⟨"p1", "Pat", "asdkjasd", some 0⟩

/-- A response that the classifier assigns to `"Urban caving entrance"`
through the word-overlap tier only: no containment in either direction. -/
def cavingParaphrase : SurveyResponse :=
  ⟨"p7", "Sam", "The urban entrance for caving", none⟩

/-- A persona for the demographic-join scenarios. -/
def anaPersona : Persona := ⟨"p1", "Ana", 34, some "Teacher"⟩

/-- Two responses for the winning option: one from a known persona, one
whose `persona_id` matches no persona. -/
def cohortScenarioResults : List SurveyResponse :=
  [⟨"p1", "Ana", "Allotments", none⟩, ⟨"zzz", "Ghost", "Allotments", none⟩]

/-- A page state sitting at the follow-up estimate with the three allotment
follow-up questions selected. -/
def followupReadyState : PageState :=
  { phase := Phase.followupEstimate
    surveyResults := cohortScenarioResults
    followUpResults := []
    followUpQuestions := selectFollowUpQuestions "Allotments"
    totalCost := 0
    winningOption := some "Allotments"
    errorMsg := none }

/-- A well-formed response to the first allotment follow-up question. -/
def raisedBedsResponse : SurveyResponse := ⟨"p1", "Ana", "Raised beds", none⟩

end Centuria

namespace Centuria

/-! ## Helper lemmas about the string primitives -/

theorem infixCheck_append (pre nd suf : List Char) :
    infixCheck nd (pre ++ (nd ++ suf)) = true := by
  unfold infixCheck
  rw [List.any_eq_true]
  refine ⟨pre.length, ?_, ?_⟩
  · rw [List.mem_range, List.length_append]
    omega
  · rw [List.drop_left, List.isPrefixOf_iff_prefix]
    exact List.prefix_append nd suf

theorem trimChars_decomp (l : List Char) :
    l = l.takeWhile isSpaceChar
        ++ (trimChars l
            ++ ((l.dropWhile isSpaceChar).reverse.takeWhile isSpaceChar).reverse) := by
  have h1 : l.takeWhile isSpaceChar ++ l.dropWhile isSpaceChar = l :=
    List.takeWhile_append_dropWhile isSpaceChar l
  have h2 : (l.dropWhile isSpaceChar).reverse.takeWhile isSpaceChar
      ++ (l.dropWhile isSpaceChar).reverse.dropWhile isSpaceChar
      = (l.dropWhile isSpaceChar).reverse :=
    List.takeWhile_append_dropWhile isSpaceChar (l.dropWhile isSpaceChar).reverse
  have h3 := congrArg List.reverse h2
  rw [List.reverse_append, List.reverse_reverse] at h3
  rw [show trimChars l
      = ((l.dropWhile isSpaceChar).reverse.dropWhile isSpaceChar).reverse from rfl]
  rw [h3, h1]

theorem jsIncludes_trim_self (s : String) : jsIncludes s (jsTrim s) = true := by
  show infixCheck (trimChars s.data) s.data = true
  have h := trimChars_decomp s.data
  generalize ht : trimChars s.data = t at h ⊢
  rw [h]
  exact infixCheck_append _ t _

/-! ## The two classifier loops as first-match searches -/

theorem containLoop_eq_find? (resp : String) (opts : List String) :
    containLoop resp opts = opts.find? (containmentMatch resp) := by
  induction opts with
  | nil => rfl
  | cons o rest ih =>
    simp only [containLoop, List.find?_cons]
    cases h : (jsIncludes resp (jsToLower o) || jsIncludes (jsToLower o) resp) with
    | true =>
      have hm : containmentMatch resp o = true := h
      simp [h, hm]
    | false =>
      have hm : containmentMatch resp o = false := h
      simp [h, hm, ih]

theorem overlapLoop_eq_find? (resp : String) (opts : List String) :
    overlapLoop resp opts = opts.find? (wordOverlapMatch resp) := by
  induction opts with
  | nil => rfl
  | cons o rest ih =>
    simp only [overlapLoop, List.find?_cons]
    by_cases h : 3 ≤ overlapCount resp o
    · have hm : wordOverlapMatch resp o = true := decide_eq_true h
      simp [h, hm]
    · have hm : wordOverlapMatch resp o = false := decide_eq_false h
      simp [h, hm, ih]

/-- C2. Classification applies the two tiers in strict priority order with
first match winning: tier 1 is containment in declaration order, tier 2 is
3-word overlap in declaration order, every option is tested for containment
before any option is tested for word overlap, and a response matching no
option is classified `"Other"` — i.e. the source classifier coincides with
the classifier written from the specification text. -/
theorem classify_two_tier_first_match (options : List String) (respRaw : String) :
    classify options respRaw = classifySpec options respRaw := by
  simp only [classify, classifySpec]
  rw [containLoop_eq_find?, overlapLoop_eq_find?]

theorem containLoop_mem {resp : String} {opts : List String} {o : String}
    (h : containLoop resp opts = some o) : o ∈ opts := by
  rw [containLoop_eq_find?] at h
  exact List.mem_of_find?_eq_some h

theorem overlapLoop_mem {resp : String} {opts : List String} {o : String}
    (h : overlapLoop resp opts = some o) : o ∈ opts := by
  rw [overlapLoop_eq_find?] at h
  exact List.mem_of_find?_eq_some h

theorem classify_mem_or_other (options : List String) (respRaw : String) :
    classify options respRaw ∈ options ∨ classify options respRaw = "Other" := by
  simp only [classify]
  cases h1 : containLoop (jsTrim (jsToLower respRaw)) options with
  | some o => simp only [h1]; exact Or.inl (containLoop_mem h1)
  | none =>
    simp only [h1]
    cases h2 : overlapLoop (jsTrim (jsToLower respRaw)) options with
    | some o => simp only [h2]; exact Or.inl (overlapLoop_mem h2)
    | none => simp [h2]

/-! ## C7: classifying an option's exact label -/

theorem containLoop_first (resp : String) (opt : String) :
    ∀ options : List String, opt ∈ options →
      (jsIncludes resp (jsToLower opt) || jsIncludes (jsToLower opt) resp) = true →
      (∀ o ∈ options, o ≠ opt →
        (jsIncludes resp (jsToLower o) || jsIncludes (jsToLower o) resp) = false) →
      containLoop resp options = some opt
  | [], hmem, _, _ => absurd hmem (List.not_mem_nil opt)
  | o :: rest, hmem, hopt, hall => by
    by_cases ho : o = opt
    · subst ho
      simp only [containLoop, hopt, if_pos]
    · have hfail := hall o (List.mem_cons_self o rest) ho
      simp only [containLoop, hfail, Bool.false_eq_true, if_false]
      exact containLoop_first resp opt rest
        (List.mem_of_ne_of_mem (fun he => ho he.symm) hmem)
        hopt (fun o' ho' hne => hall o' (List.mem_cons_of_mem o ho') hne)

/-- C7 (as amended). For an option list in which no other option's lowercased
label contains, or is contained in, the trimmed lowercased label of a given
option — which holds for every option list in the page — classifying the
exact text of that option's label yields that option. -/
theorem classify_exact_label (options : List String) (opt : String)
    (hmem : opt ∈ options)
    (hsep : ∀ o ∈ options, o ≠ opt →
      jsIncludes (jsTrim (jsToLower opt)) (jsToLower o) = false ∧
      jsIncludes (jsToLower o) (jsTrim (jsToLower opt)) = false) :
    classify options opt = opt := by
  have hself : (jsIncludes (jsTrim (jsToLower opt)) (jsToLower opt)
      || jsIncludes (jsToLower opt) (jsTrim (jsToLower opt))) = true := by
    rw [jsIncludes_trim_self, Bool.or_true]
  have hloop : containLoop (jsTrim (jsToLower opt)) options = some opt :=
    containLoop_first _ opt options hmem hself
      (fun o ho hne => by rw [(hsep o ho hne).1, (hsep o ho hne).2]; rfl)
  simp only [classify, hloop]

/-- C7 witness: the amended theorem applied to the page's plot options at
the option reachable only through its full label. -/
theorem classify_exact_label_witness :
    "Urban caving entrance" ∈ plotOptions ∧
    classify plotOptions "Urban caving entrance" = "Urban caving entrance" :=
  ⟨by decide, classify_exact_label plotOptions "Urban caving entrance"
    (by decide) (by decide)⟩

/-- C7 counterexample: for the option list `["Pond", "Urban pond"]` the exact
label `"Urban pond"` is classified to `"Pond"` (the earlier option's label is
contained in it), so the claim is false for general option lists. -/
theorem classify_exact_label_counterexample :
    "Urban pond" ∈ ["Pond", "Urban pond"] ∧
    classify ["Pond", "Urban pond"] "Urban pond" = "Pond" ∧
    "Pond" ≠ "Urban pond" := by decide

/-! ## Object-key bookkeeping -/

theorem contains_iff (l : List String) (a : String) :
    l.contains a = true ↔ a ∈ l := by
  rw [List.contains_eq_any_beq, List.any_eq_true]
  constructor
  · rintro ⟨x, hx, he⟩
    exact (eq_of_beq he) ▸ hx
  · intro h
    exact ⟨a, h, beq_self_eq_true a⟩

theorem mem_dedupKeysAux (x : String) :
    ∀ (l seen : List String), x ∈ dedupKeysAux seen l ↔ x ∈ l ∧ x ∉ seen := by
  intro l
  induction l with
  | nil => intro seen; simp [dedupKeysAux]
  | cons k ks ih =>
    intro seen
    by_cases h : seen.contains k = true
    · have hk : k ∈ seen := (contains_iff seen k).mp h
      simp only [dedupKeysAux, if_pos h, ih seen, List.mem_cons]
      constructor
      · rintro ⟨hx, hns⟩
        exact ⟨Or.inr hx, hns⟩
      · rintro ⟨hx | hx, hns⟩
        · exact absurd (hx ▸ hk) hns
        · exact ⟨hx, hns⟩
    · have hk : k ∉ seen := fun hc => h ((contains_iff seen k).mpr hc)
      simp only [dedupKeysAux, if_neg h, List.mem_cons, ih (k :: seen)]
      constructor
      · rintro (rfl | ⟨hx, hns⟩)
        · exact ⟨Or.inl rfl, hk⟩
        · exact ⟨Or.inr hx, fun hc => hns (Or.inr hc)⟩
      · rintro ⟨hx | hx, hns⟩
        · exact Or.inl hx
        · by_cases hxk : x = k
          · exact Or.inl hxk
          · exact Or.inr ⟨hx, fun hc => hc.elim hxk hns⟩

theorem dedupKeysAux_nodup : ∀ (l seen : List String), (dedupKeysAux seen l).Nodup
  | [], _ => List.nodup_nil
  | k :: ks, seen => by
    by_cases h : seen.contains k = true
    · simp only [dedupKeysAux, if_pos h]
      exact dedupKeysAux_nodup ks seen
    · simp only [dedupKeysAux, if_neg h]
      rw [List.nodup_cons]
      refine ⟨?_, dedupKeysAux_nodup ks (k :: seen)⟩
      intro hc
      exact ((mem_dedupKeysAux k ks (k :: seen)).mp hc).2 (List.mem_cons_self k seen)

theorem mem_dedupKeys (x : String) (l : List String) : x ∈ dedupKeys l ↔ x ∈ l := by
  rw [dedupKeys, mem_dedupKeysAux]
  simp

theorem dedupKeys_nodup (l : List String) : (dedupKeys l).Nodup :=
  dedupKeysAux_nodup l []

/-! ## Summing counts over a partition of keys -/

theorem length_filter_beq_add (ys : List String) (k : String) :
    (ys.filter (fun y => y == k)).length + (ys.filter (fun y => y != k)).length
      = ys.length := by
  induction ys with
  | nil => rfl
  | cons y ys ih =>
    simp only [List.filter_cons]
    by_cases h : y = k
    · rw [if_pos (by simp [h]), if_neg (by simp [h])]
      simp only [List.length_cons]
      omega
    · rw [if_neg (by simp [h]), if_pos (by simp [h])]
      simp only [List.length_cons]
      omega

theorem filter_beq_filter_bne (ys : List String) (k k' : String) (hne : k' ≠ k) :
    ((ys.filter (fun y => y != k)).filter (fun y => y == k')).length
      = (ys.filter (fun y => y == k')).length := by
  rw [List.filter_filter]
  congr 1
  apply List.filter_congr
  intro y _
  by_cases h : y = k'
  · subst h
    simp [hne]
  · simp [h]

theorem sum_count_partition :
    ∀ (keys ys : List String), keys.Nodup → (∀ y ∈ ys, y ∈ keys) →
      (keys.map (fun k => (ys.filter (fun y => y == k)).length)).sum = ys.length
  | [], ys, _, hmem => by
    have hnil : ys = [] :=
      List.eq_nil_iff_forall_not_mem.mpr (fun y hy => by simpa using hmem y hy)
    simp [hnil]
  | k :: ks, ys, hnd, hmem => by
    rw [List.map_cons, List.sum_cons]
    rw [List.nodup_cons] at hnd
    have hmap : ks.map (fun k' => (ys.filter (fun y => y == k')).length)
        = ks.map (fun k' =>
            ((ys.filter (fun y => y != k)).filter (fun y => y == k')).length) := by
      apply List.map_congr_left
      intro k' hk'
      exact (filter_beq_filter_bne ys k k' (fun he => hnd.1 (he ▸ hk'))).symm
    rw [hmap]
    rw [sum_count_partition ks (ys.filter (fun y => y != k)) hnd.2 ?_]
    · have := length_filter_beq_add ys k
      omega
    · intro y hy
      rw [List.mem_filter] at hy
      rcases List.mem_cons.mp (hmem y hy.1) with h | h
      · exact absurd h (by simpa using hy.2)
      · exact h

/-! ## Sums through the sort and the zero-count filter -/

theorem sum_map_jsSort (l : List (String × Nat)) :
    ((jsSortByCountDesc l).map (fun e => e.2)).sum = (l.map (fun e => e.2)).sum :=
  List.Perm.sum_eq ((List.perm_insertionSort tallyLE l).map (fun e => e.2))

theorem sum_map_filter_pos (l : List (String × Nat)) :
    ((l.filter (fun e => 0 < e.2)).map (fun e => e.2)).sum
      = (l.map (fun e => e.2)).sum := by
  induction l with
  | nil => rfl
  | cons e l ih =>
    rw [List.filter_cons]
    by_cases h : 0 < e.2
    · rw [if_pos (by simpa using h)]
      simp [ih]
    · rw [if_neg (by simpa using h)]
      have h0 : e.2 = 0 := by omega
      simp [ih, h0]

/-! ## The tally counts as filters over the classified labels -/

theorem countFor_eq_filter_map (options : List String)
    (results : List SurveyResponse) (k : String) :
    countFor options results k
      = ((results.map (fun r => classify options r.response)).filter
          (fun y => y == k)).length := by
  rw [countFor, List.filter_map, List.length_map]
  rfl

theorem tallyKeys_nodup (options : List String) (results : List SurveyResponse) :
    (tallyKeys options results).Nodup := by
  rw [tallyKeys]
  by_cases h : ((results.any fun r => classify options r.response == "Other")
      && !((dedupKeys options).contains "Other")) = true
  · rw [if_pos h]
    rw [List.nodup_append]
    refine ⟨dedupKeys_nodup options, List.nodup_singleton _, ?_⟩
    intro a ha hb
    rw [List.mem_singleton] at hb
    subst hb
    have h2 : (dedupKeys options).contains "Other" = false := by
      have := (Bool.and_eq_true _ _).mp h
      simpa using this.2
    have : "Other" ∈ dedupKeys options := ha
    rw [← contains_iff] at this
    rw [h2] at this
    cases this
  · rw [if_neg h]
    exact dedupKeys_nodup options

theorem classify_mem_tallyKeys (options : List String)
    (results : List SurveyResponse) (r : SurveyResponse) (hr : r ∈ results) :
    classify options r.response ∈ tallyKeys options results := by
  rw [tallyKeys]
  rcases classify_mem_or_other options r.response with h | h
  · have hd : classify options r.response ∈ dedupKeys options :=
      (mem_dedupKeys _ _).mpr h
    by_cases hc : ((results.any fun x => classify options x.response == "Other")
        && !((dedupKeys options).contains "Other")) = true
    · rw [if_pos hc]
      exact List.mem_append_left _ hd
    · rw [if_neg hc]
      exact hd
  · by_cases hb : (dedupKeys options).contains "Other" = true
    · have hcond : ((results.any fun x => classify options x.response == "Other")
          && !((dedupKeys options).contains "Other")) = false := by
        rw [hb]
        simp
      rw [if_neg (by rw [hcond]; exact Bool.false_ne_true)]
      rw [h]
      exact (contains_iff _ _).mp hb
    · have hA : (results.any fun x => classify options x.response == "Other") = true :=
        List.any_eq_true.mpr ⟨r, hr, by rw [h]; exact beq_self_eq_true _⟩
      have hB : ((dedupKeys options).contains "Other") = false := by
        cases hcb : (dedupKeys options).contains "Other" with
        | true => exact absurd hcb hb
        | false => rfl
      rw [if_pos (by rw [hA, hB]; rfl)]
      rw [h]
      exact List.mem_append_right _ (List.mem_singleton_self _)

/-- C1, primary tally half: the counts displayed by `voteTallies` always sum
to the number of responses tallied. -/
theorem voteTallies_sum (options : List String) (results : List SurveyResponse) :
    ((voteTallies options results).map (fun e => e.2)).sum = results.length := by
  cases results with
  | nil => rfl
  | cons r rs =>
    simp only [voteTallies, List.isEmpty_cons, Bool.false_eq_true, if_false]
    rw [sum_map_jsSort, sum_map_filter_pos, List.map_map]
    have hcomp : ((fun e : String × Nat => e.2)
        ∘ fun k => (k, countFor options (r :: rs) k))
        = fun k => countFor options (r :: rs) k := rfl
    rw [hcomp]
    have hmap2 : (tallyKeys options (r :: rs)).map
          (fun k => countFor options (r :: rs) k)
        = (tallyKeys options (r :: rs)).map
            (fun k => (((r :: rs).map (fun x => classify options x.response)).filter
              (fun y => y == k)).length) := by
      apply List.map_congr_left
      intro k _
      exact countFor_eq_filter_map options (r :: rs) k
    rw [hmap2]
    rw [sum_count_partition _ _ (tallyKeys_nodup options (r :: rs)) ?_]
    · rw [List.length_map]
    · intro y hy
      rw [List.mem_map] at hy
      obtain ⟨x, hx, rfl⟩ := hy
      exact classify_mem_tallyKeys options (r :: rs) x hx

/-! ## Follow-up tallies: counted and dropped responses -/

theorem fuCountFor_eq_filterMap (qOptions : List String)
    (rs : List SurveyResponse) (k : String) :
    fuCountFor qOptions rs k
      = ((rs.filterMap
          (fun r => containLoop (jsTrim (jsToLower r.response)) qOptions)).filter
            (fun y => y == k)).length := by
  induction rs with
  | nil => rfl
  | cons r rs ih =>
    simp only [fuCountFor, List.filter_cons] at ih ⊢
    cases h : containLoop (jsTrim (jsToLower r.response)) qOptions with
    | none =>
      rw [if_neg (by simp)]
      simp only [List.filterMap_cons, h]
      exact ih
    | some o =>
      simp only [List.filterMap_cons, h, List.filter_cons]
      by_cases hk : o = k
      · rw [if_pos (by simp [hk]), if_pos (by simp [hk])]
        simp only [List.length_cons]
        rw [ih]
      · rw [if_neg (by simp [hk]), if_neg (by simp [hk])]
        exact ih

theorem filterMap_length_eq_filter_isSome {α β : Type} (f : α → Option β)
    (l : List α) :
    (l.filterMap f).length = (l.filter (fun a => (f a).isSome)).length := by
  induction l with
  | nil => rfl
  | cons a l ih =>
    cases h : f a with
    | none => simp [List.filterMap_cons_none h, List.filter_cons, h, ih]
    | some b => simp [List.filterMap_cons_some h, List.filter_cons, h, ih]

theorem followUpTallyFor_sum (q : FollowUpQuestion) (rs : List SurveyResponse) :
    ((followUpTallyFor q rs).map (fun e => e.2)).sum
      = (rs.filter (fun r =>
          (containLoop (jsTrim (jsToLower r.response)) q.options).isSome)).length := by
  rw [followUpTallyFor, sum_map_jsSort, List.map_map]
  have hcomp : ((fun e : String × Nat => e.2)
      ∘ fun k => (k, fuCountFor q.options rs k))
      = fun k => fuCountFor q.options rs k := rfl
  rw [hcomp]
  have hmap : (dedupKeys q.options).map (fun k => fuCountFor q.options rs k)
      = (dedupKeys q.options).map (fun k =>
          ((rs.filterMap
            (fun r => containLoop (jsTrim (jsToLower r.response)) q.options)).filter
              (fun y => y == k)).length) := by
    apply List.map_congr_left
    intro k _
    exact fuCountFor_eq_filterMap q.options rs k
  rw [hmap]
  rw [sum_count_partition _ _ (dedupKeys_nodup q.options) ?_]
  · exact filterMap_length_eq_filter_isSome _ rs
  · intro y hy
    rw [List.mem_filterMap] at hy
    obtain ⟨r, _, hr⟩ := hy
    exact (mem_dedupKeys _ _).mpr (containLoop_mem hr)

/-- C1 (as amended). The sum of all counts in the primary vote tally equals
the number of responses tallied — every response lands in exactly one bucket,
`"Other"` included. A follow-up question's tally, by contrast, has no
`"Other"` bucket and no word-overlap tier: its counts sum to the number of
responses whose text containment-matches one of the question's options,
which is at most — and can be strictly below — the batch size. -/
theorem tally_sum_invariant :
    (∀ (options : List String) (results : List SurveyResponse),
      ((voteTallies options results).map (fun e => e.2)).sum = results.length)
    ∧ (∀ (q : FollowUpQuestion) (rs : List SurveyResponse),
      ((followUpTallyFor q rs).map (fun e => e.2)).sum
        = (rs.filter (fun r =>
            (containLoop (jsTrim (jsToLower r.response)) q.options).isSome)).length)
    ∧ (∀ (q : FollowUpQuestion) (rs : List SurveyResponse),
      ((followUpTallyFor q rs).map (fun e => e.2)).sum ≤ rs.length) := by
  refine ⟨voteTallies_sum, followUpTallyFor_sum, ?_⟩
  intro q rs
  rw [followUpTallyFor_sum]
  exact List.length_filter_le _ rs

/-- C1 counterexample: a follow-up batch of one question and one response
that matches no option has a tally summing to 0, not to the batch size 1 —
the response is silently dropped, there being no `"Other"` bucket in
`followUpTallies`. -/
theorem followup_tally_drops_unmatched :
    ((followUpTallies [plotStyleQuestion] [unmatchedFollowUpResponse]).map
        (fun t => (t.2.map (fun e => e.2)).sum)) = [0]
    ∧ [unmatchedFollowUpResponse].length = 1
    ∧ (0 : Nat) ≠ 1 := by decide

/-- C3. The tally output ranks the positive-count labels in descending count
order; zero-count labels are dropped; the sort is stable, so equal counts
keep the key order (options in declaration order, then `"Other"`); and in
scenario A — options `["Allotments", "Playground", "Pond"]` with one response
per bucket in Allotments, Playground and Other — the winning first entry is
`"Allotments"`, the first-declared among the tied labels. -/
theorem voteTallies_ranking :
    (∀ (options : List String) (results : List SurveyResponse),
      (voteTallies options results).Pairwise tallyLE)
    ∧ (∀ (options : List String) (results : List SurveyResponse)
        (e : String × Nat), e ∈ voteTallies options results → 0 < e.2)
    ∧ (∀ (l : List (String × Nat)) (a b : String × Nat),
        tallyLE a b → List.Sublist [a, b] l →
        List.Sublist [a, b] (jsSortByCountDesc l))
    ∧ voteTallies ["Allotments", "Playground", "Pond"] scenarioAResponses
        = [("Allotments", 1), ("Playground", 1), ("Other", 1)] := by
  refine ⟨?_, ?_, ?_, by decide⟩
  · intro options results
    simp only [voteTallies]
    by_cases h : results.isEmpty = true
    · rw [if_pos h]
      exact List.Pairwise.nil
    · rw [if_neg h]
      exact List.sorted_insertionSort tallyLE _
  · intro options results e he
    simp only [voteTallies] at he
    by_cases h : results.isEmpty = true
    · rw [if_pos h] at he
      cases he
    · rw [if_neg h] at he
      rw [jsSortByCountDesc, List.mem_insertionSort, List.mem_filter] at he
      simpa using he.2
  · intro l a b hab hsub
    exact List.pair_sublist_insertionSort hab hsub

/-- C3 witness: the positivity component applied at scenario A's winning
entry, and the stability component applied at a concrete tied list. -/
theorem voteTallies_ranking_witness :
    (("Allotments", 1) ∈ voteTallies ["Allotments", "Playground", "Pond"]
        scenarioAResponses
      ∧ 0 < (("Allotments", 1) : String × Nat).2)
    ∧ (tallyLE ("x", 1) ("y", 1)
      ∧ List.Sublist [("x", 1), ("y", 1)] [("x", 1), ("y", 1)]
      ∧ List.Sublist [("x", 1), ("y", 1)]
          (jsSortByCountDesc [("x", 1), ("y", 1)])) :=
  ⟨⟨by decide,
    voteTallies_ranking.2.1 ["Allotments", "Playground", "Pond"]
      scenarioAResponses ("Allotments", 1) (by decide)⟩,
   by decide, by decide,
    voteTallies_ranking.2.2.1 [("x", 1), ("y", 1)] ("x", 1) ("y", 1)
      (by decide) (by decide)⟩

/-! ## C5: the top-choice cohort -/

/-- C5 (as amended). The top-choice cohort is chosen by containment against
the winning label alone — the lowercased (untrimmed) response text contains
the label or is contained in it; responses the classifier assigns to the
winning label through the word-overlap tier are not included — and each
selected response is joined with the persona whose `id` equals its
`persona_id`, when one exists. -/
theorem topChoiceVoters_containment_only (options : List String)
    (results : List SurveyResponse) (personas : List Persona)
    (top : String × Nat)
    (hhead : (voteTallies options results).head? = some top)
    (hne : top.1 ≠ "") :
    topChoiceVoters options results personas
      = (results.filter (cohortContainCond top.1)).map
          (fun r => ⟨r, personas.find? (fun p => p.id == r.persona_id)⟩) := by
  obtain ⟨t, c⟩ := top
  simp only [topChoiceVoters, hhead]
  rw [if_neg (by simpa using hne)]
  rfl

/-- C5 witness: the amended theorem applied at a concrete two-response
survey won by `"Allotments"`. -/
theorem topChoiceVoters_containment_only_witness :
    (voteTallies plotOptions cohortScenarioResults).head? = some ("Allotments", 2)
    ∧ topChoiceVoters plotOptions cohortScenarioResults [anaPersona]
        = (cohortScenarioResults.filter (cohortContainCond "Allotments")).map
            (fun r => ⟨r, [anaPersona].find? (fun p => p.id == r.persona_id)⟩) :=
  ⟨by decide,
    topChoiceVoters_containment_only plotOptions cohortScenarioResults
      [anaPersona] ("Allotments", 2) (by decide) (by decide)⟩

/-- C5 counterexample: `cavingParaphrase` is classified to the winning label
`"Urban caving entrance"` through the word-overlap tier and is the only
response, yet the cohort is empty — cohort membership does not coincide with
classification to the winning label. -/
theorem topChoiceVoters_excludes_overlap_votes :
    classify plotOptions cavingParaphrase.response = "Urban caving entrance"
    ∧ (voteTallies plotOptions [cavingParaphrase]).head?
        = some ("Urban caving entrance", 1)
    ∧ topChoiceVoters plotOptions [cavingParaphrase] [] = [] := by decide

/-! ## C6: follow-up question selection -/

/-- C6 (as amended). `"Community vegetable garden with shared plots"` contains
none of the selector's category keywords (`'allotment'`, `'playground'`,
`'gym'`, ...), so the selector returns the generic fallback's 3 questions,
not the growing/allotment set; a text containing `'allotment'` does get the
growing set. -/
theorem selector_vegetable_garden_generic :
    selectFollowUpQuestions "Community vegetable garden with shared plots"
      = genericQuestions
    ∧ selectFollowUpQuestions "Allotments" = allotmentQuestions
    ∧ genericQuestions ≠ allotmentQuestions := by
  exact ⟨by decide, by decide, by decide⟩

/-- C6 counterexample: fed scenario B's winning text, the selector does not
return the growing/food category's questions. -/
theorem selector_vegetable_garden_counterexample :
    selectFollowUpQuestions "Community vegetable garden with shared plots"
      ≠ allotmentQuestions := by decide

/-! ## C8: follow-up cost scaling -/

set_option maxHeartbeats 2000000 in
/-- C8. The follow-up estimate is one sampled estimate scaled by the batch
size `k = 3`: `prompt_tokens`, `completion_tokens`, `cost_per_agent` and
`total_cost` each equal the sampled estimate's field multiplied by 3,
`num_questions` is 3 and `num_agents` is unchanged; every batch the selector
produces has exactly 3 questions, and only the batch's first question is ever
sampled — there is no re-sampling per question. -/
theorem followup_estimate_scaled_by_three (e : CostEstimate) :
    (scaleFollowUpEstimate e).prompt_tokens = e.prompt_tokens * 3
    ∧ (scaleFollowUpEstimate e).completion_tokens = e.completion_tokens * 3
    ∧ (scaleFollowUpEstimate e).cost_per_agent = e.cost_per_agent * 3
    ∧ (scaleFollowUpEstimate e).total_cost = e.total_cost * 3
    ∧ (scaleFollowUpEstimate e).num_questions = 3
    ∧ (scaleFollowUpEstimate e).num_agents = e.num_agents
    ∧ (∀ w : String, (selectFollowUpQuestions w).length = 3)
    ∧ (∀ qs : List FollowUpQuestion, followUpEstimateSample qs = qs.head?) := by
  refine ⟨rfl, rfl, rfl, rfl, rfl, rfl, ?_, fun _ => rfl⟩
  intro w
  simp only [selectFollowUpQuestions]
  repeat' split
  all_goals rfl

/-! ## C9: demographic breakdowns skip unknown personas -/

theorem foldl_ageGroupStep_total (voters : List Voter) :
    ∀ acc : AgeGroups,
      ageGroupsTotal (List.foldl ageGroupStep acc voters)
        = ageGroupsTotal acc + (voters.filter (fun v => v.persona.isSome)).length := by
  induction voters with
  | nil => intro acc; simp
  | cons v vs ih =>
    intro acc
    rw [List.foldl_cons, ih]
    cases hp : v.persona with
    | none =>
      rw [List.filter_cons, if_neg (by simp [hp])]
      have hstep : ageGroupStep acc v = acc := by
        simp only [ageGroupStep, hp]
      rw [hstep]
    | some p =>
      rw [List.filter_cons, if_pos (by simp [hp])]
      have hstep : ageGroupsTotal (ageGroupStep acc v) = ageGroupsTotal acc + 1 := by
        simp only [ageGroupStep, hp]
        by_cases h1 : p.age < 30
        · rw [if_pos h1]; simp [ageGroupsTotal]; omega
        · rw [if_neg h1]
          by_cases h2 : p.age < 50
          · rw [if_pos h2]; simp [ageGroupsTotal]; omega
          · rw [if_neg h2]
            by_cases h3 : p.age < 65
            · rw [if_pos h3]; simp [ageGroupsTotal]; omega
            · rw [if_neg h3]; simp [ageGroupsTotal]; omega
      rw [hstep]
      simp only [List.length_cons]
      omega

theorem getAgeGroups_total (voters : List Voter) :
    ageGroupsTotal (getAgeGroups voters)
      = (voters.filter (fun v => v.persona.isSome)).length := by
  rw [getAgeGroups, foldl_ageGroupStep_total]
  simp [ageGroupsTotal]

theorem getOccupations_sum (voters : List Voter) :
    ((getOccupations voters).map (fun e => e.2)).sum
      = (voters.filter (fun v => v.persona.isSome)).length := by
  simp only [getOccupations]
  rw [sum_map_jsSort, List.map_map]
  have hcomp : ((fun e : String × Nat => e.2)
      ∘ fun k => (k, ((voters.filterMap (fun v => v.persona)).map occupationOf).count k))
      = fun k => ((voters.filterMap (fun v => v.persona)).map occupationOf).count k :=
    rfl
  rw [hcomp]
  have hcount : (dedupKeys ((voters.filterMap (fun v => v.persona)).map occupationOf)).map
        (fun k => ((voters.filterMap (fun v => v.persona)).map occupationOf).count k)
      = (dedupKeys ((voters.filterMap (fun v => v.persona)).map occupationOf)).map
        (fun k => (((voters.filterMap (fun v => v.persona)).map occupationOf).filter
          (fun y => y == k)).length) := by
    apply List.map_congr_left
    intro k _
    exact List.countP_eq_length_filter _ _
  rw [hcount]
  rw [sum_count_partition _ _
    (dedupKeys_nodup ((voters.filterMap (fun v => v.persona)).map occupationOf))
    (fun y hy => (mem_dedupKeys _ _).mpr hy)]
  rw [List.length_map]
  exact filterMap_length_eq_filter_isSome _ voters

/-- C9. A cohort response whose `persona_id` matches no persona is kept in
the cohort with no joined persona; both the age-group and the occupation
breakdowns count exactly the voters that carry a persona, so their totals can
be strictly below the cohort size used as the percentage denominator — as in
the concrete scenario: the unknown-id response sits in a cohort of size 2
while both breakdowns total 1. -/
theorem breakdowns_skip_unknown_personas :
    (∀ voters : List Voter,
      ageGroupsTotal (getAgeGroups voters)
        = (voters.filter (fun v => v.persona.isSome)).length)
    ∧ (∀ voters : List Voter,
      ((getOccupations voters).map (fun e => e.2)).sum
        = (voters.filter (fun v => v.persona.isSome)).length)
    ∧ (Voter.mk ⟨"zzz", "Ghost", "Allotments", none⟩ none
        ∈ topChoiceVoters plotOptions cohortScenarioResults [anaPersona]
      ∧ (topChoiceVoters plotOptions cohortScenarioResults [anaPersona]).length = 2
      ∧ ageGroupsTotal (getAgeGroups
          (topChoiceVoters plotOptions cohortScenarioResults [anaPersona])) = 1
      ∧ ((getOccupations
          (topChoiceVoters plotOptions cohortScenarioResults [anaPersona])).map
            (fun e => e.2)).sum = 1
      ∧ (1 : Nat) < 2) :=
  ⟨getAgeGroups_total, getOccupations_sum, by decide⟩

/-! ## C10: which options the word-overlap tier can reach -/

/-- C10. The word-overlap tier counts overlapping words of the option's
label, so an option whose label tokenizes to fewer than 3 words can never
match at that tier and is only reachable by containment; among the 11 plot
options only `"Urban caving entrance"` tokenizes to at least 3 words, and it
is indeed reachable through the word-overlap tier: a paraphrase that matches
no option by containment classifies to it. -/
theorem short_labels_unreachable_by_overlap :
    (∀ (opt resp : String), (jsSplitSpace (jsToLower opt)).length < 3 →
      wordOverlapMatch resp opt = false)
    ∧ plotOptions.filter
        (fun opt => decide (3 ≤ (jsSplitSpace (jsToLower opt)).length))
        = ["Urban caving entrance"]
    ∧ containLoop (jsTrim (jsToLower cavingParaphrase.response)) plotOptions = none
    ∧ classify plotOptions cavingParaphrase.response = "Urban caving entrance" := by
  refine ⟨?_, by decide, by decide, by decide⟩
  intro opt resp h
  have hle : overlapCount resp opt ≤ (jsSplitSpace (jsToLower opt)).length :=
    List.length_filter_le _ _
  rw [wordOverlapMatch]
  exact decide_eq_false (by omega)

/-- C10 witness: the overlap tier cannot reach the one-word label `"Pond"`. -/
theorem short_labels_unreachable_by_overlap_witness :
    (jsSplitSpace (jsToLower "Pond")).length < 3
    ∧ wordOverlapMatch "a pond would be lovely" "Pond" = false :=
  ⟨by decide, short_labels_unreachable_by_overlap.1 "Pond" "a pond would be lovely"
    (by decide)⟩

/-! ## C4: failure handling of the survey runs -/

/-- C4 (as amended). A failed run request during the first survey aborts it:
the phase returns to `intro` and no responses are kept, whether the request
threw or completed non-OK. During a follow-up run only a thrown (network)
error aborts — back to `results`, keeping earlier questions' responses, none
from the failed question; a request that completes with a non-OK status is
skipped silently: its question contributes no responses, the loop continues,
and the machine ends at `followup-results` with the remaining questions'
responses kept. -/
theorem run_failure_phases (s : PageState) (rs₁ rs₂ : List SurveyResponse)
    (c₁ c₂ : ℚ) (m : String) (h3 : s.followUpQuestions.length = 3) :
    ((runSurvey RunOutcome.httpError s).phase = Phase.intro
      ∧ (runSurvey RunOutcome.httpError s).surveyResults = []
      ∧ (runSurvey (RunOutcome.netError m) s).phase = Phase.intro
      ∧ (runSurvey (RunOutcome.netError m) s).surveyResults = [])
    ∧ ((runFollowUpSurvey [RunOutcome.ok rs₁ c₁, RunOutcome.netError m,
          RunOutcome.ok rs₂ c₂] s).phase = Phase.results
      ∧ (runFollowUpSurvey [RunOutcome.ok rs₁ c₁, RunOutcome.netError m,
          RunOutcome.ok rs₂ c₂] s).followUpResults
        = rs₁.map (fun r => { r with question_index := some 0 }))
    ∧ ((runFollowUpSurvey [RunOutcome.ok rs₁ c₁, RunOutcome.httpError,
          RunOutcome.ok rs₂ c₂] s).phase = Phase.followupResults
      ∧ (runFollowUpSurvey [RunOutcome.ok rs₁ c₁, RunOutcome.httpError,
          RunOutcome.ok rs₂ c₂] s).followUpResults
        = rs₁.map (fun r => { r with question_index := some 0 })
          ++ rs₂.map (fun r => { r with question_index := some 2 })) := by
  have hrange : List.range s.followUpQuestions.length = [0, 1, 2] := by
    rw [h3]
    rfl
  refine ⟨⟨rfl, rfl, rfl, rfl⟩, ?_, ?_⟩
  · simp [runFollowUpSurvey, hrange, List.zip_cons_cons, runFollowUpLoop]
  · simp [runFollowUpSurvey, hrange, List.zip_cons_cons, runFollowUpLoop]

/-- C4 witness: the amended theorem applied at the concrete follow-up-ready
state, showing the abort-to-results behaviour on a thrown error. -/
theorem run_failure_phases_witness :
    followupReadyState.followUpQuestions.length = 3
    ∧ (runFollowUpSurvey [RunOutcome.ok [] 0, RunOutcome.netError "boom",
        RunOutcome.ok [] 0] followupReadyState).phase = Phase.results :=
  ⟨rfl, (run_failure_phases followupReadyState [] [] 0 0 "boom" rfl).2.1.1⟩

/-- C4 counterexample: a follow-up run in which one question's request
completes with a non-OK status is not aborted — the machine proceeds to
`followup-results` (not back to `results`), and the other questions'
responses are kept and displayed. -/
theorem followup_httpError_no_abort :
    (runFollowUpSurvey [RunOutcome.ok [raisedBedsResponse] 0, RunOutcome.httpError,
        RunOutcome.ok [raisedBedsResponse] 0] followupReadyState).phase
      = Phase.followupResults
    ∧ Phase.followupResults ≠ Phase.results
    ∧ (runFollowUpSurvey [RunOutcome.ok [raisedBedsResponse] 0, RunOutcome.httpError,
        RunOutcome.ok [raisedBedsResponse] 0] followupReadyState).followUpResults
      = [⟨"p1", "Ana", "Raised beds", some 0⟩, ⟨"p1", "Ana", "Raised beds", some 2⟩] := by
  refine ⟨rfl, by decide, rfl⟩

end Centuria
